import Mathlib

/-!
# pygpc CUDA extension wrapper: `pygpc_extensions_cuda.cpp`

A shallow embedding of the two Python entry points `create_gpc_matrix_cuda` and
`get_approximation_cuda` and of the module method table.  A call is modelled as
a run that produces a trace of the externally visible steps (array conversions,
dimension reads, the kernel invocation, reference-count updates) together with
either the returned Python value or a fault (a dereference the C code performs
without a check).
-/

namespace Pygpc

/-! ## Data model -/

/-- Address of a data buffer: a caller buffer, or the fresh buffer of a converted copy. -/
inductive Ptr where
  | buf (id : Nat)
  | copyOf (p : Ptr)
  deriving DecidableEq

/-- Requirement flags handed to `PyArray_FROM_OTF`:
`NPY_ARRAY_IN_ARRAY` is C-contiguous and aligned, `NPY_ARRAY_OUT_ARRAY` adds writeable. -/
inductive Requirements where
  | NPY_ARRAY_IN_ARRAY
  | NPY_ARRAY_OUT_ARRAY
  deriving DecidableEq

/-- Element type of an array, as far as `PyArray_FROM_OTF(.., NPY_DOUBLE, ..)` is
concerned: already double, another type with a safe cast to double (an integer type,
say), or a type without one (a complex type, say). -/
inductive ElemType where
  | NPY_DOUBLE
  | safe_cast
  | no_safe_cast
  deriving DecidableEq

/-- What the wrapper can observe of a NumPy array object: the dimension vector
(`PyArray_DIMS`, of length `PyArray_NDIM`), the data pointer (`PyArray_DATA`), and the
properties that decide what `PyArray_FROM_OTF(.., NPY_DOUBLE, ..)` does with it. -/
structure PyArrayObject where
  dimensions : List Nat
  data : Ptr
  type : ElemType
  c_contiguous : Bool
  aligned : Bool
  writeable : Bool
  deriving DecidableEq

/-- Whether the elements can be cast to double under the safe casting rule. -/
def PyArrayObject.castable (a : PyArrayObject) : Bool :=
  decide (a.type ≠ .no_safe_cast)

/-- Whether the elements are double already. -/
def PyArrayObject.is_double (a : PyArrayObject) : Bool :=
  decide (a.type = .NPY_DOUBLE)

/-- A Python object in an argument tuple: a NumPy array, or anything else. -/
inductive PyObject where
  | ndarray (a : PyArrayObject)
  | other (id : Nat)
  deriving DecidableEq

/-- Value returned by an entry point: `NULL` (error) or a new reference to `None`. -/
inductive PyRet where
  | NULL
  | Py_None
  deriving DecidableEq

/-- A dereference that the C code performs unchecked and that has no defined result. -/
inductive Fault where
  | null_dereference
  | dim_out_of_range
  deriving DecidableEq

/-- Externally visible steps of a call.  `dim_read pos i` is a read of entry `i` of the
dimension vector of the array at position `pos` (0-based) of the argument tuple. -/
inductive Event where
  | from_otf (pos : Nat) (req : Requirements)
  | dim_read (pos : Nat) (i : Nat)
  | create_gpc_matrix_wrapper (ptr_arguments ptr_coeffs ptr_result : Ptr)
      (n_arguments n_dim n_basis n_grad n_coeffs : Nat)
  | get_approximation_wrapper (ptr_arguments ptr_poly_coeffs ptr_gpc_coeffs ptr_result : Ptr)
      (n_arguments n_dim n_basis n_poly_coeffs n_gpc_coeffs : Nat)
  | Py_DECREF (pos : Nat)
  | Py_INCREF_None
  deriving DecidableEq

/-- How a run ends: with a value, or with a fault. -/
inductive Outcome (α : Type) where
  | ok (a : α)
  | fault (f : Fault)
  deriving DecidableEq

/-- A run: the trace of steps performed so far and how it ended. -/
structure Run (α : Type) where
  trace : List Event
  outcome : Outcome α
  deriving DecidableEq

/-- Sequencing of runs: a fault stops the run, otherwise the traces are concatenated. -/
def Run.bind {α β : Type} (m : Run α) (f : α → Run β) : Run β :=
  match m.outcome with
  | .fault e => ⟨m.trace, .fault e⟩
  | .ok a => ⟨m.trace ++ (f a).trace, (f a).outcome⟩

instance : Monad Run where
  pure a := ⟨[], .ok a⟩
  bind := Run.bind

/-- A single step that cannot fault. -/
def emit (e : Event) : Run Unit := ⟨[e], .ok ()⟩

/-! ## The CPython / NumPy calls the wrapper makes -/

/-- One `O!` item with `&PyArray_Type`: the object must be a NumPy array. -/
def parse_item : PyObject → Option PyArrayObject
  | .ndarray a => some a
  | .other _ => none

/-- All items of a tuple against a format made only of `O!` items. -/
def parse_items : List PyObject → Option (List PyArrayObject)
  | [] => some []
  | o :: os =>
    match parse_item o, parse_items os with
    | some a, some as => some (a :: as)
    | _, _ => none

/-- `PyArg_ParseTuple(args, "O!" * n, &PyArray_Type, ..)`: succeeds exactly when the
tuple has `n` items and each of them is a NumPy array. -/
def PyArg_ParseTuple (args : List PyObject) (n : Nat) : Option (List PyArrayObject) :=
  if args.length = n then parse_items args else none

/-- Whether the array already meets the requirements as a `NPY_DOUBLE` array. -/
def meets (op : PyArrayObject) : Requirements → Bool
  | .NPY_ARRAY_IN_ARRAY => op.is_double && op.c_contiguous && op.aligned
  | .NPY_ARRAY_OUT_ARRAY => op.is_double && op.c_contiguous && op.aligned && op.writeable

/-- The array `PyArray_FROM_OTF(op, NPY_DOUBLE, req)` yields: `NULL` (here `none`) when the
element type cannot be cast to double, the array itself when it already meets the
requirements, and otherwise a well-behaved double copy of the same shape. -/
def converted (op : PyArrayObject) (req : Requirements) : Option PyArrayObject :=
  if op.castable = false then none
  else if meets op req then some op
  else some
    { dimensions := op.dimensions, data := .copyOf op.data, type := .NPY_DOUBLE,
      c_contiguous := true, aligned := true, writeable := true }

/-- The call `PyArray_FROM_OTF(op, NPY_DOUBLE, req)` on the array at position `pos`. -/
def PyArray_FROM_OTF (pos : Nat) (op : PyArrayObject) (req : Requirements) :
    Run (Option PyArrayObject) :=
  ⟨[.from_otf pos req], .ok (converted op req)⟩

/-- `PyArray_DIMS(arr)`: dereferences `arr`. -/
def PyArray_DIMS (arr : Option PyArrayObject) : Run (List Nat) :=
  match arr with
  | none => ⟨[], .fault .null_dereference⟩
  | some a => ⟨[], .ok a.dimensions⟩

/-- `PyArray_DATA(arr)`: dereferences `arr`. -/
def PyArray_DATA (arr : Option PyArrayObject) : Run Ptr :=
  match arr with
  | none => ⟨[], .fault .null_dereference⟩
  | some a => ⟨[], .ok a.data⟩

/-- The read `ptr_dim[i]` from the dimension vector of the array at position `pos`. -/
def read_dim (pos : Nat) (ptr_dim : List Nat) (i : Nat) : Run Nat :=
  ⟨[.dim_read pos i],
    match ptr_dim[i]? with
    | some d => .ok d
    | none => .fault .dim_out_of_range⟩

/-- `Py_DECREF(arr)` on the converted array of position `pos`: dereferences `arr`. -/
def Py_DECREF (pos : Nat) (arr : Option PyArrayObject) : Run Unit :=
  match arr with
  | none => ⟨[], .fault .null_dereference⟩
  | some _ => emit (.Py_DECREF pos)

/-- `PyArray_SIZE`: the number of elements of an array. -/
def PyArray_SIZE (a : PyArrayObject) : Nat := a.dimensions.prod

/-! ## The two entry points -/

/-- `create_gpc_matrix_cuda(self, args)`. -/
def create_gpc_matrix_cuda (args : List PyObject) : Run PyRet :=
  match PyArg_ParseTuple args 3 with
  | some [py_arguments, py_coeffs, py_result] => do
    let arguments ← PyArray_FROM_OTF 0 py_arguments .NPY_ARRAY_IN_ARRAY
    let coeffs ← PyArray_FROM_OTF 1 py_coeffs .NPY_ARRAY_IN_ARRAY
    let result ← PyArray_FROM_OTF 2 py_result .NPY_ARRAY_OUT_ARRAY
    let ptr_dim_arguments ← PyArray_DIMS arguments
    let n_arguments ← read_dim 0 ptr_dim_arguments 0
    let n_dim ← read_dim 0 ptr_dim_arguments 1
    let ptr_arguments ← PyArray_DATA arguments
    let ptr_dim_result ← PyArray_DIMS result
    let n_basis ← read_dim 2 ptr_dim_result 1
    let n_grad ← read_dim 2 ptr_dim_result 2
    let ptr_result ← PyArray_DATA result
    let ptr_dim_coeffs ← PyArray_DIMS coeffs
    let n_coeffs ← read_dim 1 ptr_dim_coeffs 0
    let ptr_coeffs ← PyArray_DATA coeffs
    emit (.create_gpc_matrix_wrapper ptr_arguments ptr_coeffs ptr_result
      n_arguments n_dim n_basis n_grad n_coeffs)
    Py_DECREF 0 arguments
    Py_DECREF 1 coeffs
    Py_DECREF 2 result
    emit .Py_INCREF_None
    pure .Py_None
  | _ => pure .NULL

/-- `get_approximation_cuda(self, args)`. -/
def get_approximation_cuda (args : List PyObject) : Run PyRet :=
  match PyArg_ParseTuple args 4 with
  | some [py_arguments, py_poly_coeffs, py_gpc_coeffs, py_result] => do
    let arguments ← PyArray_FROM_OTF 0 py_arguments .NPY_ARRAY_IN_ARRAY
    let poly_coeffs ← PyArray_FROM_OTF 1 py_poly_coeffs .NPY_ARRAY_IN_ARRAY
    let gpc_coeffs ← PyArray_FROM_OTF 2 py_gpc_coeffs .NPY_ARRAY_IN_ARRAY
    let result ← PyArray_FROM_OTF 3 py_result .NPY_ARRAY_OUT_ARRAY
    let ptr_dim_arguments ← PyArray_DIMS arguments
    let n_arguments ← read_dim 0 ptr_dim_arguments 0
    let n_dim ← read_dim 0 ptr_dim_arguments 1
    let ptr_arguments ← PyArray_DATA arguments
    let ptr_dim_poly_coeffs ← PyArray_DIMS poly_coeffs
    let n_poly_coeffs ← read_dim 1 ptr_dim_poly_coeffs 0
    let ptr_poly_coeffs ← PyArray_DATA poly_coeffs
    let ptr_dim_gpc_coeffs ← PyArray_DIMS gpc_coeffs
    let n_basis ← read_dim 2 ptr_dim_gpc_coeffs 0
    let n_gpc_coeffs ← read_dim 2 ptr_dim_gpc_coeffs 1
    let ptr_gpc_coeffs ← PyArray_DATA gpc_coeffs
    let ptr_result ← PyArray_DATA result
    emit (.get_approximation_wrapper ptr_arguments ptr_poly_coeffs ptr_gpc_coeffs ptr_result
      n_arguments n_dim n_basis n_poly_coeffs n_gpc_coeffs)
    Py_DECREF 0 arguments
    Py_DECREF 1 poly_coeffs
    Py_DECREF 2 gpc_coeffs
    Py_DECREF 3 result
    emit .Py_INCREF_None
    pure .Py_None
  | _ => pure .NULL

/-! ## The method table -/

/-- One row of a `PyMethodDef` table; `none` stands for a `NULL` field. -/
structure PyMethodDef where
  ml_name : Option String
  ml_meth : Option (List PyObject → Run PyRet)
  ml_flags : Nat
  ml_doc : Option String

/-- The calling-convention flag `METH_VARARGS`. -/
def METH_VARARGS : Nat := 1

/-- The table `methods[]` of the module, sentinel row included. -/
def methods : List PyMethodDef :=
  [ { ml_name := some "create_gpc_matrix_cuda", ml_meth := some create_gpc_matrix_cuda,
      ml_flags := METH_VARARGS, ml_doc := some "" },
    { ml_name := some "get_approximation_cuda", ml_meth := some get_approximation_cuda,
      ml_flags := METH_VARARGS, ml_doc := some "" },
    { ml_name := none, ml_meth := none, ml_flags := 0, ml_doc := none } ]

/-- The rows CPython registers: those before the first row whose name is `NULL`. -/
def exposed (table : List PyMethodDef) : List PyMethodDef :=
  table.takeWhile (fun m => m.ml_name.isSome)

/-! ## Vocabulary for stating properties of runs -/

/-- Whether a step is an invocation of one of the two kernels. -/
def Event.is_kernel_call : Event → Bool
  | .create_gpc_matrix_wrapper _ _ _ _ _ _ _ _ => true
  | .get_approximation_wrapper _ _ _ _ _ _ _ _ _ => true
  | _ => false

/-- Number of kernel invocations in a trace. -/
def kernel_calls (t : List Event) : Nat := (t.filter Event.is_kernel_call).length

/-- A well-behaved double array of the given shape over caller buffer `id`
(`PyArray_FROM_OTF` returns it unchanged). -/
def carray (id : Nat) (dims : List Nat) : PyArrayObject :=
  { dimensions := dims, data := .buf id, type := .NPY_DOUBLE,
    c_contiguous := true, aligned := true, writeable := true }

/-- Modelled from the spec: the Orthogonal Basis Evaluator of section 4.1, a pluggable
strategy with the contract `evaluate(degree, x)` and `derivative(degree, x)`; its
implementation is not in the wrapper file. -/
structure BasisFamily (R : Type) where
  evaluate : Nat → R → R
  derivative : Nat → R → R

/-- Modelled from the spec: section 4.2 step 1, the value slot is the product over
dimensions `d` of `basis_eval(m[d], s[d])`; the kernel source is missing. -/
def basis_value {R : Type} [CommSemiring R] {n_dim : Nat} (B : BasisFamily R)
    (m : Fin n_dim → Nat) (s : Fin n_dim → R) : R :=
  ∏ d : Fin n_dim, B.evaluate (m d) (s d)

/-- Modelled from the spec: section 4.2 step 2, the partial derivative along dimension `d`
is `basis_derivative(m[d], s[d])` times the product over the other dimensions of
`basis_eval`; the kernel source is missing. -/
def basis_derivative_along {R : Type} [CommSemiring R] {n_dim : Nat} (B : BasisFamily R)
    (m : Fin n_dim → Nat) (s : Fin n_dim → R) (d : Nat) : R :=
  ∏ e : Fin n_dim, if e.val = d then B.derivative (m e) (s e) else B.evaluate (m e) (s e)

/-- Modelled from the spec: the number of derivative slots of section 3, `1` for value
only and `n_dim + 1` with gradients; the kernel source, which would fix the slot
layout, is missing. -/
abbrev n_grad_of (want_gradient : Bool) (n_dim : Nat) : Nat :=
  (if want_gradient then n_dim else 0) + 1

/-- Modelled from the spec: `build_design_matrix(samples, multi_index_table, want_gradient)`
of section 4.2, the kernel behind `create_gpc_matrix_wrapper`, whose source is missing:
slot `0` holds the basis value and slot `d + 1` the partial derivative along dimension `d`. -/
def build_design_matrix {R : Type} [CommSemiring R] {n_arguments n_basis n_dim : Nat}
    (B : BasisFamily R) (samples : Fin n_arguments → Fin n_dim → R)
    (multi_index_table : Fin n_basis → Fin n_dim → Nat) (want_gradient : Bool) :
    Fin n_arguments → Fin n_basis → Fin (n_grad_of want_gradient n_dim) → R :=
  fun s m =>
    Fin.cases (basis_value B (multi_index_table m) (samples s))
      (fun d => basis_derivative_along B (multi_index_table m) (samples s) d.val)

/-- Modelled from the spec: the values of `evaluate(samples, multi_index_table,
expansion_coefficients)` of section 4.3, the kernel behind `get_approximation_wrapper`,
whose source is missing: `value[s][o]` is the sum over basis rows `m` of
`expansion_coefficients[m][o] * basis_value(m, s)`. -/
def evaluate {R : Type} [CommSemiring R] {n_arguments n_basis n_dim n_outputs : Nat}
    (B : BasisFamily R) (samples : Fin n_arguments → Fin n_dim → R)
    (multi_index_table : Fin n_basis → Fin n_dim → Nat)
    (expansion_coefficients : Fin n_basis → Fin n_outputs → R) :
    Fin n_arguments → Fin n_outputs → R :=
  fun s o => ∑ m : Fin n_basis,
    expansion_coefficients m o * basis_value B (multi_index_table m) (samples s)

/-! ## Facts about the modelled library calls -/

theorem ndarray_injective : Function.Injective PyObject.ndarray :=
  fun x y hxy => by cases hxy; rfl

theorem parse_items_some (args : List PyObject) (l : List PyArrayObject) :
    parse_items args = some l ↔ args = l.map PyObject.ndarray := by
  induction args generalizing l with
  | nil => cases l <;> simp [parse_items]
  | cons o os ih =>
    cases o with
    | other id =>
      cases l <;> simp [parse_items, parse_item]
    | ndarray a =>
      cases hos : parse_items os with
      | none =>
        cases l with
        | nil => simp [parse_items, parse_item, hos]
        | cons b bs =>
          simp only [parse_items, parse_item, hos, List.map_cons, List.cons.injEq, false_iff,
            not_and, reduceCtorEq]
          intro _ h
          rw [← ih, hos] at h
          cases h
      | some as =>
        have has := (ih as).mp hos
        subst has
        cases l with
        | nil => simp [parse_items, parse_item, hos]
        | cons b bs =>
          simp only [parse_items, parse_item, hos, List.map_cons, List.cons.injEq,
            Option.some.injEq, PyObject.ndarray.injEq]
          constructor
          · rintro ⟨rfl, rfl⟩; exact ⟨rfl, rfl⟩
          · rintro ⟨rfl, h⟩
            exact ⟨rfl, (List.map_injective_iff.mpr ndarray_injective) h⟩

theorem PyArg_ParseTuple_some (args : List PyObject) (n : Nat) (l : List PyArrayObject) :
    PyArg_ParseTuple args n = some l ↔ l.length = n ∧ args = l.map PyObject.ndarray := by
  unfold PyArg_ParseTuple
  by_cases h : args.length = n
  · rw [if_pos h, parse_items_some]
    constructor
    · intro h2
      refine ⟨?_, h2⟩
      rw [← h, h2, List.length_map]
    · exact fun h2 => h2.2
  · rw [if_neg h]
    simp only [false_iff, not_and, reduceCtorEq]
    intro h1 h2
    apply h
    rw [h2, List.length_map, h1]

theorem converted_dims {op x : PyArrayObject} {req : Requirements}
    (h : converted op req = some x) : x.dimensions = op.dimensions := by
  unfold converted at h
  split at h
  · cases h
  · split at h
    · cases h; rfl
    · cases h; rfl

theorem converted_none_iff (op : PyArrayObject) (req : Requirements) :
    converted op req = none ↔ op.castable = false := by
  unfold converted
  by_cases h : op.castable = false
  · simp [h]
  · by_cases h2 : meets op req = true <;> simp [h, h2]

theorem converted_isSome (op : PyArrayObject) (req : Requirements) (h : op.castable = true) :
    ∃ x, converted op req = some x := by
  cases hx : converted op req with
  | none => rw [converted_none_iff] at hx; rw [h] at hx; cases hx
  | some x => exact ⟨x, rfl⟩

theorem castable_of_converted {op x : PyArrayObject} {req : Requirements}
    (h : converted op req = some x) : op.castable = true := by
  cases hc : op.castable with
  | false => rw [← converted_none_iff op req] at hc; rw [hc] at h; cases h
  | true => rfl

theorem PyArray_SIZE_converted {op x : PyArrayObject} {req : Requirements}
    (h : converted op req = some x) : PyArray_SIZE x = PyArray_SIZE op := by
  unfold PyArray_SIZE
  rw [converted_dims h]

/-! ## Runs of `create_gpc_matrix_cuda` -/

/-- The complete run when every array converts and every dimension read is in range. -/
theorem create_run_ok (a c r a1 c1 r1 : PyArrayObject) (na nd nb ng nc : Nat)
    (ha : converted a .NPY_ARRAY_IN_ARRAY = some a1)
    (hc : converted c .NPY_ARRAY_IN_ARRAY = some c1)
    (hr : converted r .NPY_ARRAY_OUT_ARRAY = some r1)
    (h0 : a.dimensions[0]? = some na) (h1 : a.dimensions[1]? = some nd)
    (h2 : r.dimensions[1]? = some nb) (h3 : r.dimensions[2]? = some ng)
    (h4 : c.dimensions[0]? = some nc) :
    create_gpc_matrix_cuda [.ndarray a, .ndarray c, .ndarray r] =
      ⟨[.from_otf 0 .NPY_ARRAY_IN_ARRAY, .from_otf 1 .NPY_ARRAY_IN_ARRAY,
        .from_otf 2 .NPY_ARRAY_OUT_ARRAY, .dim_read 0 0, .dim_read 0 1, .dim_read 2 1,
        .dim_read 2 2, .dim_read 1 0,
        .create_gpc_matrix_wrapper a1.data c1.data r1.data na nd nb ng nc,
        .Py_DECREF 0, .Py_DECREF 1, .Py_DECREF 2, .Py_INCREF_None], .ok .Py_None⟩ := by
  simp [create_gpc_matrix_cuda, PyArg_ParseTuple, parse_items, parse_item, bind, Run.bind,
      PyArray_FROM_OTF, PyArray_DIMS, PyArray_DATA, read_dim, Py_DECREF, emit, pure,
    ha, hc, hr, h0, h1, h2, h3, h4, converted_dims ha, converted_dims hc, converted_dims hr]

/-- A tuple that does not parse: the call returns `NULL` and performs no step. -/
theorem create_run_unparsed (args : List PyObject)
    (h : ¬ ∃ a c r, args = [.ndarray a, .ndarray c, .ndarray r]) :
    create_gpc_matrix_cuda args = ⟨[], .ok .NULL⟩ := by
  unfold create_gpc_matrix_cuda
  split
  · rename_i a c r hp
    rw [PyArg_ParseTuple_some] at hp
    exact absurd ⟨a, c, r, by simpa using hp.2⟩ h
  · rfl

/-- Every kernel invocation comes from a tuple of three arrays that convert and whose
dimension reads are in range, and its parameters are those reads. -/
theorem create_kernel_inv (args : List PyObject) (p1 p2 p3 : Ptr) (na nd nb ng nc : Nat)
    (h : Event.create_gpc_matrix_wrapper p1 p2 p3 na nd nb ng nc ∈
      (create_gpc_matrix_cuda args).trace) :
    ∃ a c r a1 c1 r1, args = [.ndarray a, .ndarray c, .ndarray r] ∧
      converted a .NPY_ARRAY_IN_ARRAY = some a1 ∧
      converted c .NPY_ARRAY_IN_ARRAY = some c1 ∧
      converted r .NPY_ARRAY_OUT_ARRAY = some r1 ∧
      a.dimensions[0]? = some na ∧ a.dimensions[1]? = some nd ∧
      r.dimensions[1]? = some nb ∧ r.dimensions[2]? = some ng ∧
      c.dimensions[0]? = some nc ∧ p1 = a1.data ∧ p2 = c1.data ∧ p3 = r1.data := by
  by_cases hp : ∃ a c r, args = [.ndarray a, .ndarray c, .ndarray r]
  swap
  · rw [create_run_unparsed args hp] at h
    cases h
  obtain ⟨a, c, r, rfl⟩ := hp
  refine ⟨a, c, r, ?_⟩
  cases ha : converted a Requirements.NPY_ARRAY_IN_ARRAY with
  | none =>
    have hfa := (converted_none_iff a _).mp ha
    simp [create_gpc_matrix_cuda, PyArg_ParseTuple, parse_items, parse_item, bind, Run.bind,
      PyArray_FROM_OTF, PyArray_DIMS, PyArray_DATA, read_dim, Py_DECREF, emit, pure, *] at h
  | some a1 =>
  have hda := converted_dims ha
  have hta := castable_of_converted ha
  cases ha0 : a.dimensions[0]? with
  | none =>
    simp [create_gpc_matrix_cuda, PyArg_ParseTuple, parse_items, parse_item, bind, Run.bind,
      PyArray_FROM_OTF, PyArray_DIMS, PyArray_DATA, read_dim, Py_DECREF, emit, pure, *] at h
  | some na1 =>
  cases ha1 : a.dimensions[1]? with
  | none =>
    simp [create_gpc_matrix_cuda, PyArg_ParseTuple, parse_items, parse_item, bind, Run.bind,
      PyArray_FROM_OTF, PyArray_DIMS, PyArray_DATA, read_dim, Py_DECREF, emit, pure, *] at h
  | some nd1 =>
  cases hr : converted r Requirements.NPY_ARRAY_OUT_ARRAY with
  | none =>
    have hfr := (converted_none_iff r _).mp hr
    simp [create_gpc_matrix_cuda, PyArg_ParseTuple, parse_items, parse_item, bind, Run.bind,
      PyArray_FROM_OTF, PyArray_DIMS, PyArray_DATA, read_dim, Py_DECREF, emit, pure, *] at h
  | some r1 =>
  have hdr := converted_dims hr
  have htr := castable_of_converted hr
  cases hr1 : r.dimensions[1]? with
  | none =>
    simp [create_gpc_matrix_cuda, PyArg_ParseTuple, parse_items, parse_item, bind, Run.bind,
      PyArray_FROM_OTF, PyArray_DIMS, PyArray_DATA, read_dim, Py_DECREF, emit, pure, *] at h
  | some nb1 =>
  cases hr2 : r.dimensions[2]? with
  | none =>
    simp [create_gpc_matrix_cuda, PyArg_ParseTuple, parse_items, parse_item, bind, Run.bind,
      PyArray_FROM_OTF, PyArray_DIMS, PyArray_DATA, read_dim, Py_DECREF, emit, pure, *] at h
  | some ng1 =>
  cases hc : converted c Requirements.NPY_ARRAY_IN_ARRAY with
  | none =>
    have hfc := (converted_none_iff c _).mp hc
    simp [create_gpc_matrix_cuda, PyArg_ParseTuple, parse_items, parse_item, bind, Run.bind,
      PyArray_FROM_OTF, PyArray_DIMS, PyArray_DATA, read_dim, Py_DECREF, emit, pure, *] at h
  | some c1 =>
  have hdc := converted_dims hc
  have htc := castable_of_converted hc
  cases hc0 : c.dimensions[0]? with
  | none =>
    simp [create_gpc_matrix_cuda, PyArg_ParseTuple, parse_items, parse_item, bind, Run.bind,
      PyArray_FROM_OTF, PyArray_DIMS, PyArray_DATA, read_dim, Py_DECREF, emit, pure, *] at h
  | some nc1 =>
  simp [create_gpc_matrix_cuda, PyArg_ParseTuple, parse_items, parse_item, bind, Run.bind,
    PyArray_FROM_OTF, PyArray_DIMS, PyArray_DATA, read_dim, Py_DECREF, emit, pure, *] at h
  obtain ⟨rfl, rfl, rfl, rfl, rfl, rfl, rfl, rfl⟩ := h
  exact ⟨a1, c1, r1, rfl, rfl, rfl, rfl, rfl, rfl, rfl, rfl, rfl, rfl, rfl, rfl⟩

/-- The complete run when every array converts and every dimension read is in range. -/
theorem get_run_ok (a c g r a1 c1 g1 r1 : PyArrayObject) (na nd nb np ng : Nat)
    (ha : converted a .NPY_ARRAY_IN_ARRAY = some a1)
    (hc : converted c .NPY_ARRAY_IN_ARRAY = some c1)
    (hg : converted g .NPY_ARRAY_IN_ARRAY = some g1)
    (hr : converted r .NPY_ARRAY_OUT_ARRAY = some r1)
    (h0 : a.dimensions[0]? = some na) (h1 : a.dimensions[1]? = some nd)
    (h2 : c.dimensions[0]? = some np) (h3 : g.dimensions[0]? = some nb)
    (h4 : g.dimensions[1]? = some ng) :
    get_approximation_cuda [.ndarray a, .ndarray c, .ndarray g, .ndarray r] =
      ⟨[.from_otf 0 .NPY_ARRAY_IN_ARRAY, .from_otf 1 .NPY_ARRAY_IN_ARRAY,
        .from_otf 2 .NPY_ARRAY_IN_ARRAY, .from_otf 3 .NPY_ARRAY_OUT_ARRAY,
        .dim_read 0 0, .dim_read 0 1, .dim_read 1 0, .dim_read 2 0, .dim_read 2 1,
        .get_approximation_wrapper a1.data c1.data g1.data r1.data na nd nb np ng,
        .Py_DECREF 0, .Py_DECREF 1, .Py_DECREF 2, .Py_DECREF 3, .Py_INCREF_None],
        .ok .Py_None⟩ := by
  simp [get_approximation_cuda, PyArg_ParseTuple, parse_items, parse_item, bind, Run.bind,
      PyArray_FROM_OTF, PyArray_DIMS, PyArray_DATA, read_dim, Py_DECREF, emit, pure,
    ha, hc, hg, hr, h0, h1, h2, h3, h4, converted_dims ha, converted_dims hc,
    converted_dims hg, converted_dims hr]

/-- A tuple that does not parse: the call returns `NULL` and performs no step. -/
theorem get_run_unparsed (args : List PyObject)
    (h : ¬ ∃ a c g r, args = [.ndarray a, .ndarray c, .ndarray g, .ndarray r]) :
    get_approximation_cuda args = ⟨[], .ok .NULL⟩ := by
  unfold get_approximation_cuda
  split
  · rename_i a c g r hp
    rw [PyArg_ParseTuple_some] at hp
    exact absurd ⟨a, c, g, r, by simpa using hp.2⟩ h
  · rfl

/-- Every kernel invocation comes from a tuple of four arrays that convert and whose
dimension reads are in range, and its parameters are those reads. -/
theorem get_kernel_inv (args : List PyObject) (p1 p2 p3 p4 : Ptr) (na nd nb np ng : Nat)
    (h : Event.get_approximation_wrapper p1 p2 p3 p4 na nd nb np ng ∈
      (get_approximation_cuda args).trace) :
    ∃ a c g r a1 c1 g1 r1, args = [.ndarray a, .ndarray c, .ndarray g, .ndarray r] ∧
      converted a .NPY_ARRAY_IN_ARRAY = some a1 ∧
      converted c .NPY_ARRAY_IN_ARRAY = some c1 ∧
      converted g .NPY_ARRAY_IN_ARRAY = some g1 ∧
      converted r .NPY_ARRAY_OUT_ARRAY = some r1 ∧
      a.dimensions[0]? = some na ∧ a.dimensions[1]? = some nd ∧
      c.dimensions[0]? = some np ∧ g.dimensions[0]? = some nb ∧
      g.dimensions[1]? = some ng ∧
      p1 = a1.data ∧ p2 = c1.data ∧ p3 = g1.data ∧ p4 = r1.data := by
  by_cases hp : ∃ a c g r, args = [.ndarray a, .ndarray c, .ndarray g, .ndarray r]
  swap
  · rw [get_run_unparsed args hp] at h
    cases h
  obtain ⟨a, c, g, r, rfl⟩ := hp
  refine ⟨a, c, g, r, ?_⟩
  cases ha : converted a Requirements.NPY_ARRAY_IN_ARRAY with
  | none =>
    have hfa := (converted_none_iff a _).mp ha
    simp [get_approximation_cuda, PyArg_ParseTuple, parse_items, parse_item, bind, Run.bind,
      PyArray_FROM_OTF, PyArray_DIMS, PyArray_DATA, read_dim, Py_DECREF, emit, pure, *] at h
  | some a1 =>
  have hda := converted_dims ha
  have hta := castable_of_converted ha
  cases ha0 : a.dimensions[0]? with
  | none =>
    simp [get_approximation_cuda, PyArg_ParseTuple, parse_items, parse_item, bind, Run.bind,
      PyArray_FROM_OTF, PyArray_DIMS, PyArray_DATA, read_dim, Py_DECREF, emit, pure, *] at h
  | some na1 =>
  cases ha1 : a.dimensions[1]? with
  | none =>
    simp [get_approximation_cuda, PyArg_ParseTuple, parse_items, parse_item, bind, Run.bind,
      PyArray_FROM_OTF, PyArray_DIMS, PyArray_DATA, read_dim, Py_DECREF, emit, pure, *] at h
  | some nd1 =>
  cases hc : converted c Requirements.NPY_ARRAY_IN_ARRAY with
  | none =>
    have hfc := (converted_none_iff c _).mp hc
    simp [get_approximation_cuda, PyArg_ParseTuple, parse_items, parse_item, bind, Run.bind,
      PyArray_FROM_OTF, PyArray_DIMS, PyArray_DATA, read_dim, Py_DECREF, emit, pure, *] at h
  | some c1 =>
  have hdc := converted_dims hc
  have htc := castable_of_converted hc
  cases hc0 : c.dimensions[0]? with
  | none =>
    simp [get_approximation_cuda, PyArg_ParseTuple, parse_items, parse_item, bind, Run.bind,
      PyArray_FROM_OTF, PyArray_DIMS, PyArray_DATA, read_dim, Py_DECREF, emit, pure, *] at h
  | some np1 =>
  cases hg : converted g Requirements.NPY_ARRAY_IN_ARRAY with
  | none =>
    have hfg := (converted_none_iff g _).mp hg
    simp [get_approximation_cuda, PyArg_ParseTuple, parse_items, parse_item, bind, Run.bind,
      PyArray_FROM_OTF, PyArray_DIMS, PyArray_DATA, read_dim, Py_DECREF, emit, pure, *] at h
  | some g1 =>
  have hdg := converted_dims hg
  have htg := castable_of_converted hg
  cases hg0 : g.dimensions[0]? with
  | none =>
    simp [get_approximation_cuda, PyArg_ParseTuple, parse_items, parse_item, bind, Run.bind,
      PyArray_FROM_OTF, PyArray_DIMS, PyArray_DATA, read_dim, Py_DECREF, emit, pure, *] at h
  | some nb1 =>
  cases hg1 : g.dimensions[1]? with
  | none =>
    simp [get_approximation_cuda, PyArg_ParseTuple, parse_items, parse_item, bind, Run.bind,
      PyArray_FROM_OTF, PyArray_DIMS, PyArray_DATA, read_dim, Py_DECREF, emit, pure, *] at h
  | some ng1 =>
  cases hr : converted r Requirements.NPY_ARRAY_OUT_ARRAY with
  | none =>
    have hfr := (converted_none_iff r _).mp hr
    simp [get_approximation_cuda, PyArg_ParseTuple, parse_items, parse_item, bind, Run.bind,
      PyArray_FROM_OTF, PyArray_DIMS, PyArray_DATA, read_dim, Py_DECREF, emit, pure, *] at h
  | some r1 =>
  have hdr := converted_dims hr
  have htr := castable_of_converted hr
  simp [get_approximation_cuda, PyArg_ParseTuple, parse_items, parse_item, bind, Run.bind,
    PyArray_FROM_OTF, PyArray_DIMS, PyArray_DATA, read_dim, Py_DECREF, emit, pure, *] at h
  obtain ⟨rfl, rfl, rfl, rfl, rfl, rfl, rfl, rfl, rfl⟩ := h
  exact ⟨a1, c1, g1, r1, rfl, rfl, rfl, rfl, rfl, rfl, rfl, rfl, rfl, rfl,
    rfl, rfl, rfl, rfl⟩

/-- C1 (as stated, refuted): `arguments` with `n_dim = 3` against a multi-index table with
`n_dim = 2`: both entry points invoke their kernel, with `n_dim = 3`, and return `None`. -/
theorem shape_mismatch_reaches_kernel :
    create_gpc_matrix_cuda [.ndarray (carray 0 [4, 3]), .ndarray (carray 1 [5, 2]),
        .ndarray (carray 2 [4, 5, 1])] =
      ⟨[.from_otf 0 .NPY_ARRAY_IN_ARRAY, .from_otf 1 .NPY_ARRAY_IN_ARRAY,
        .from_otf 2 .NPY_ARRAY_OUT_ARRAY, .dim_read 0 0, .dim_read 0 1, .dim_read 2 1,
        .dim_read 2 2, .dim_read 1 0,
        .create_gpc_matrix_wrapper (.buf 0) (.buf 1) (.buf 2) 4 3 5 1 5,
        .Py_DECREF 0, .Py_DECREF 1, .Py_DECREF 2, .Py_INCREF_None], .ok .Py_None⟩ ∧
    get_approximation_cuda [.ndarray (carray 0 [4, 3]), .ndarray (carray 1 [5, 2]),
        .ndarray (carray 2 [5, 2]), .ndarray (carray 3 [4, 2])] =
      ⟨[.from_otf 0 .NPY_ARRAY_IN_ARRAY, .from_otf 1 .NPY_ARRAY_IN_ARRAY,
        .from_otf 2 .NPY_ARRAY_IN_ARRAY, .from_otf 3 .NPY_ARRAY_OUT_ARRAY,
        .dim_read 0 0, .dim_read 0 1, .dim_read 1 0, .dim_read 2 0, .dim_read 2 1,
        .get_approximation_wrapper (.buf 0) (.buf 1) (.buf 2) (.buf 3) 4 3 5 5 2,
        .Py_DECREF 0, .Py_DECREF 1, .Py_DECREF 2, .Py_DECREF 3, .Py_INCREF_None],
        .ok .Py_None⟩ := by
  decide

/-- C1 (as amended): when the second dimension of the multi-index table differs from the
second dimension of `arguments`, neither entry point rejects the call: the table's second
dimension is never read, and whenever the arrays convert and the dimensions the wrapper
does read exist, the kernel is invoked exactly once, with `n_dim = arguments.shape[1]`,
and the call returns `None`. -/
theorem shape_mismatch_not_checked :
    (∀ (a c r : PyArrayObject) (na nd nb ng nc : Nat),
      c.dimensions[1]? ≠ a.dimensions[1]? →
      a.castable = true → c.castable = true → r.castable = true →
      a.dimensions[0]? = some na → a.dimensions[1]? = some nd →
      r.dimensions[1]? = some nb → r.dimensions[2]? = some ng →
      c.dimensions[0]? = some nc →
      (create_gpc_matrix_cuda [.ndarray a, .ndarray c, .ndarray r]).outcome = .ok .Py_None ∧
      kernel_calls (create_gpc_matrix_cuda [.ndarray a, .ndarray c, .ndarray r]).trace = 1 ∧
      (∃ p1 p2 p3, Event.create_gpc_matrix_wrapper p1 p2 p3 na nd nb ng nc ∈
        (create_gpc_matrix_cuda [.ndarray a, .ndarray c, .ndarray r]).trace) ∧
      Event.dim_read 1 1 ∉
        (create_gpc_matrix_cuda [.ndarray a, .ndarray c, .ndarray r]).trace) ∧
    (∀ (a c g r : PyArrayObject) (na nd nb np ng : Nat),
      c.dimensions[1]? ≠ a.dimensions[1]? →
      a.castable = true → c.castable = true → g.castable = true → r.castable = true →
      a.dimensions[0]? = some na → a.dimensions[1]? = some nd →
      c.dimensions[0]? = some np → g.dimensions[0]? = some nb →
      g.dimensions[1]? = some ng →
      (get_approximation_cuda [.ndarray a, .ndarray c, .ndarray g, .ndarray r]).outcome =
        .ok .Py_None ∧
      kernel_calls
        (get_approximation_cuda [.ndarray a, .ndarray c, .ndarray g, .ndarray r]).trace = 1 ∧
      (∃ p1 p2 p3 p4, Event.get_approximation_wrapper p1 p2 p3 p4 na nd nb np ng ∈
        (get_approximation_cuda [.ndarray a, .ndarray c, .ndarray g, .ndarray r]).trace) ∧
      Event.dim_read 1 1 ∉
        (get_approximation_cuda [.ndarray a, .ndarray c, .ndarray g, .ndarray r]).trace) := by
  constructor
  · intro a c r na nd nb ng nc _ hta htc htr h0 h1 h2 h3 h4
    obtain ⟨a1, ha⟩ := converted_isSome a .NPY_ARRAY_IN_ARRAY hta
    obtain ⟨c1, hc⟩ := converted_isSome c .NPY_ARRAY_IN_ARRAY htc
    obtain ⟨r1, hr⟩ := converted_isSome r .NPY_ARRAY_OUT_ARRAY htr
    rw [create_run_ok a c r a1 c1 r1 na nd nb ng nc ha hc hr h0 h1 h2 h3 h4]
    refine ⟨rfl, rfl, ⟨a1.data, c1.data, r1.data, by simp⟩, by simp⟩
  · intro a c g r na nd nb np ng _ hta htc htg htr h0 h1 h2 h3 h4
    obtain ⟨a1, ha⟩ := converted_isSome a .NPY_ARRAY_IN_ARRAY hta
    obtain ⟨c1, hc⟩ := converted_isSome c .NPY_ARRAY_IN_ARRAY htc
    obtain ⟨g1, hg⟩ := converted_isSome g .NPY_ARRAY_IN_ARRAY htg
    obtain ⟨r1, hr⟩ := converted_isSome r .NPY_ARRAY_OUT_ARRAY htr
    rw [get_run_ok a c g r a1 c1 g1 r1 na nd nb np ng ha hc hg hr h0 h1 h2 h3 h4]
    refine ⟨rfl, rfl, ⟨a1.data, c1.data, g1.data, r1.data, by simp⟩, by simp⟩

/-- Witness for C1: the amended statement at a table of second dimension 2 against
`arguments` of second dimension 3, for both entry points. -/
theorem shape_mismatch_not_checked_witness :
    ((carray 1 [5, 2]).dimensions[1]? ≠ (carray 0 [4, 3]).dimensions[1]? ∧
      (create_gpc_matrix_cuda [.ndarray (carray 0 [4, 3]), .ndarray (carray 1 [5, 2]),
        .ndarray (carray 2 [4, 5, 1])]).outcome = .ok .Py_None) ∧
    (get_approximation_cuda [.ndarray (carray 0 [4, 3]), .ndarray (carray 1 [5, 2]),
        .ndarray (carray 2 [5, 2]), .ndarray (carray 3 [4, 2])]).outcome = .ok .Py_None :=
  ⟨⟨by decide,
      (shape_mismatch_not_checked.1 (carray 0 [4, 3]) (carray 1 [5, 2]) (carray 2 [4, 5, 1])
        4 3 5 1 5 (by decide) rfl rfl rfl rfl rfl rfl rfl rfl).1⟩,
    (shape_mismatch_not_checked.2 (carray 0 [4, 3]) (carray 1 [5, 2]) (carray 2 [5, 2])
      (carray 3 [4, 2]) 4 3 5 5 2 (by decide) rfl rfl rfl rfl rfl rfl rfl rfl rfl).1⟩

/-- C2 (as stated, refuted): an expansion-coefficient matrix with 7 rows against a
multi-index table with 5 rows: the kernel is invoked, with `n_basis = 7` and
`n_poly_coeffs = 5`, and the call returns `None`. -/
theorem basis_count_mismatch_reaches_kernel :
    get_approximation_cuda [.ndarray (carray 0 [4, 3]), .ndarray (carray 1 [5, 3]),
        .ndarray (carray 2 [7, 2]), .ndarray (carray 3 [4, 2])] =
      ⟨[.from_otf 0 .NPY_ARRAY_IN_ARRAY, .from_otf 1 .NPY_ARRAY_IN_ARRAY,
        .from_otf 2 .NPY_ARRAY_IN_ARRAY, .from_otf 3 .NPY_ARRAY_OUT_ARRAY,
        .dim_read 0 0, .dim_read 0 1, .dim_read 1 0, .dim_read 2 0, .dim_read 2 1,
        .get_approximation_wrapper (.buf 0) (.buf 1) (.buf 2) (.buf 3) 4 3 7 5 2,
        .Py_DECREF 0, .Py_DECREF 1, .Py_DECREF 2, .Py_DECREF 3, .Py_INCREF_None],
        .ok .Py_None⟩ := by
  decide

/-- C2 (as amended): when the row count of the expansion-coefficient matrix differs from the
row count of the multi-index table, `get_approximation_cuda` does not reject the call:
whenever the arrays convert and the dimensions it reads exist, the kernel is invoked
exactly once, receiving the two counts as the separate parameters `n_basis` and
`n_poly_coeffs`, and the call returns `None`. -/
theorem basis_count_mismatch_not_checked (a c g r : PyArrayObject) (na nd nb np ng : Nat)
    (_hne : nb ≠ np)
    (hta : a.castable = true) (htc : c.castable = true) (htg : g.castable = true)
    (htr : r.castable = true)
    (h0 : a.dimensions[0]? = some na) (h1 : a.dimensions[1]? = some nd)
    (h2 : c.dimensions[0]? = some np) (h3 : g.dimensions[0]? = some nb)
    (h4 : g.dimensions[1]? = some ng) :
    (get_approximation_cuda [.ndarray a, .ndarray c, .ndarray g, .ndarray r]).outcome =
      .ok .Py_None ∧
    kernel_calls
      (get_approximation_cuda [.ndarray a, .ndarray c, .ndarray g, .ndarray r]).trace = 1 ∧
    ∃ p1 p2 p3 p4, Event.get_approximation_wrapper p1 p2 p3 p4 na nd nb np ng ∈
      (get_approximation_cuda [.ndarray a, .ndarray c, .ndarray g, .ndarray r]).trace := by
  obtain ⟨a1, ha⟩ := converted_isSome a .NPY_ARRAY_IN_ARRAY hta
  obtain ⟨c1, hc⟩ := converted_isSome c .NPY_ARRAY_IN_ARRAY htc
  obtain ⟨g1, hg⟩ := converted_isSome g .NPY_ARRAY_IN_ARRAY htg
  obtain ⟨r1, hr⟩ := converted_isSome r .NPY_ARRAY_OUT_ARRAY htr
  rw [get_run_ok a c g r a1 c1 g1 r1 na nd nb np ng ha hc hg hr h0 h1 h2 h3 h4]
  exact ⟨rfl, rfl, ⟨a1.data, c1.data, g1.data, r1.data, by simp⟩⟩

/-- Witness for C2: the amended statement at 7 coefficient rows against 5 table rows. -/
theorem basis_count_mismatch_not_checked_witness :
    (7 : Nat) ≠ 5 ∧
    (get_approximation_cuda [.ndarray (carray 0 [4, 3]), .ndarray (carray 1 [5, 3]),
        .ndarray (carray 2 [7, 2]), .ndarray (carray 3 [4, 2])]).outcome = .ok .Py_None :=
  ⟨by decide,
    (basis_count_mismatch_not_checked (carray 0 [4, 3]) (carray 1 [5, 3]) (carray 2 [7, 2])
      (carray 3 [4, 2]) 4 3 7 5 2 (by decide) rfl rfl rfl rfl rfl rfl rfl rfl rfl).1⟩

/-- C6 (as stated, refuted): a result of shape `1 x 5 x 1` against 4 samples makes
`create_gpc_matrix_cuda` describe 20 output elements over a buffer of 5, and a result of
shape `1 x 1` makes `get_approximation_cuda` describe 8 output elements over a buffer
of 1. -/
theorem kernel_extent_exceeds_result :
    (Event.create_gpc_matrix_wrapper (.buf 0) (.buf 1) (.buf 2) 4 3 5 1 5 ∈
        (create_gpc_matrix_cuda [.ndarray (carray 0 [4, 3]), .ndarray (carray 1 [5, 3]),
          .ndarray (carray 2 [1, 5, 1])]).trace ∧
      converted (carray 2 [1, 5, 1]) .NPY_ARRAY_OUT_ARRAY = some (carray 2 [1, 5, 1]) ∧
      (carray 2 [1, 5, 1]).data = .buf 2 ∧
      ¬ (4 * 5 * 1 ≤ PyArray_SIZE (carray 2 [1, 5, 1]))) ∧
    (Event.get_approximation_wrapper (.buf 0) (.buf 1) (.buf 2) (.buf 3) 4 3 5 5 2 ∈
        (get_approximation_cuda [.ndarray (carray 0 [4, 3]), .ndarray (carray 1 [5, 3]),
          .ndarray (carray 2 [5, 2]), .ndarray (carray 3 [1, 1])]).trace ∧
      converted (carray 3 [1, 1]) .NPY_ARRAY_OUT_ARRAY = some (carray 3 [1, 1]) ∧
      (carray 3 [1, 1]).data = .buf 3 ∧
      ¬ (4 * 2 ≤ PyArray_SIZE (carray 3 [1, 1]))) := by
  decide

/-- C6 (as amended): the output extent described by the shape parameters handed to the
kernel does not exceed the number of elements of the result array whose data pointer is
handed to the kernel provided the caller allocated it to match: for
`create_gpc_matrix_cuda` a rank-3 result whose first dimension is at least
`arguments.shape[0]`, for `get_approximation_cuda` a rank-2 result whose dimensions are at
least `arguments.shape[0]` and `expansion_coefficients.shape[1]`. -/
theorem kernel_extent_within_result :
    (∀ (a c r : PyArrayObject) (p1 p2 p3 : Ptr) (na nd nb ng nc r0 rb rg : Nat),
      Event.create_gpc_matrix_wrapper p1 p2 p3 na nd nb ng nc ∈
        (create_gpc_matrix_cuda [.ndarray a, .ndarray c, .ndarray r]).trace →
      r.dimensions = [r0, rb, rg] → na ≤ r0 →
      ∃ r1, converted r .NPY_ARRAY_OUT_ARRAY = some r1 ∧ p3 = r1.data ∧
        na * nb * ng ≤ PyArray_SIZE r1) ∧
    (∀ (a c g r : PyArrayObject) (p1 p2 p3 p4 : Ptr) (na nd nb np ng r0 ro : Nat),
      Event.get_approximation_wrapper p1 p2 p3 p4 na nd nb np ng ∈
        (get_approximation_cuda [.ndarray a, .ndarray c, .ndarray g, .ndarray r]).trace →
      r.dimensions = [r0, ro] → na ≤ r0 → ng ≤ ro →
      ∃ r1, converted r .NPY_ARRAY_OUT_ARRAY = some r1 ∧ p4 = r1.data ∧
        na * ng ≤ PyArray_SIZE r1) := by
  constructor
  · intro a c r p1 p2 p3 na nd nb ng nc r0 rb rg h hdims hle
    obtain ⟨a', c', r', a1, c1, r1, hargs, ha, hc, hr, h0, h1, h2, h3, h4, hp1, hp2, hp3⟩ :=
      create_kernel_inv _ _ _ _ _ _ _ _ _ h
    clear h
    simp only [List.cons.injEq, PyObject.ndarray.injEq, and_true] at hargs
    obtain ⟨rfl, rfl, rfl⟩ := hargs
    refine ⟨r1, hr, hp3, ?_⟩
    rw [PyArray_SIZE_converted hr, PyArray_SIZE, hdims]
    rw [hdims] at h2 h3
    simp only [List.getElem?_cons_succ, List.getElem?_cons_zero, Option.some.injEq] at h2 h3
    subst h2 h3
    simp only [List.prod_cons, List.prod_nil, mul_one]
    rw [← mul_assoc]
    exact Nat.mul_le_mul_right _ (Nat.mul_le_mul_right _ hle)
  · intro a c g r p1 p2 p3 p4 na nd nb np ng r0 ro h hdims hle hle2
    obtain ⟨a', c', g', r', a1, c1, g1, r1, hargs, ha, hc, hg, hr, h0, h1, h2, h3, h4,
      hp1, hp2, hp3, hp4⟩ := get_kernel_inv _ _ _ _ _ _ _ _ _ _ h
    clear h
    simp only [List.cons.injEq, PyObject.ndarray.injEq, and_true] at hargs
    obtain ⟨rfl, rfl, rfl, rfl⟩ := hargs
    refine ⟨r1, hr, hp4, ?_⟩
    rw [PyArray_SIZE_converted hr, PyArray_SIZE, hdims]
    simp only [List.prod_cons, List.prod_nil, mul_one]
    exact Nat.mul_le_mul hle hle2

/-- Witness for C6: a `4 x 5 x 1` result against 4 samples holds the 20 elements the
kernel of `create_gpc_matrix_cuda` is told to write. -/
theorem kernel_extent_within_result_witness :
    ∃ r1, converted (carray 2 [4, 5, 1]) .NPY_ARRAY_OUT_ARRAY = some r1 ∧
      Ptr.buf 2 = r1.data ∧ 4 * 5 * 1 ≤ PyArray_SIZE r1 :=
  kernel_extent_within_result.1 (carray 0 [4, 3]) (carray 1 [5, 3]) (carray 2 [4, 5, 1])
    (.buf 0) (.buf 1) (.buf 2) 4 3 5 1 5 4 5 1 (by decide) rfl (by decide)

/-- C7: for all inputs of matching shapes and `n_grad = 1`, the values of the approximation
evaluator are the matrix product of slot 0 of the design matrix with the expansion
coefficients: `value[s][o]` is the sum over basis rows `m` of
`design_matrix[s][m][0] * expansion_coefficients[m][o]`. -/
theorem evaluate_eq_design_matrix_mul {R : Type} [CommSemiring R]
    {n_arguments n_basis n_dim n_outputs : Nat} (B : BasisFamily R)
    (samples : Fin n_arguments → Fin n_dim → R)
    (multi_index_table : Fin n_basis → Fin n_dim → Nat)
    (expansion_coefficients : Fin n_basis → Fin n_outputs → R)
    (s : Fin n_arguments) (o : Fin n_outputs) :
    n_grad_of false n_dim = 1 ∧
    evaluate B samples multi_index_table expansion_coefficients s o =
      ∑ m : Fin n_basis,
        build_design_matrix B samples multi_index_table false s m 0 *
          expansion_coefficients m o := by
  refine ⟨rfl, ?_⟩
  unfold evaluate build_design_matrix
  apply Finset.sum_congr rfl
  intro m _
  rw [mul_comm]
  rfl

/-- C8: the method table exposes exactly two operations: the rows before the sentinel are
`create_gpc_matrix_cuda` and `get_approximation_cuda`, each bound to the function of the
same name, the two names differ, and the only further row is the sentinel. -/
theorem methods_exposes_two :
    (exposed methods).map (fun m => m.ml_name) =
      [some "create_gpc_matrix_cuda", some "get_approximation_cuda"] ∧
    (exposed methods).map (fun m => m.ml_meth) =
      [some create_gpc_matrix_cuda, some get_approximation_cuda] ∧
    ((exposed methods).map (fun m => m.ml_name)).Nodup ∧
    (exposed methods).length = 2 ∧
    (methods.drop 2).map (fun m => (m.ml_name, m.ml_flags, m.ml_doc)) = [(none, 0, none)] ∧
    (methods.drop 2).map (fun m => m.ml_meth.isSome) = [false] := by
  refine ⟨rfl, rfl, ?_, rfl, rfl, rfl⟩
  decide

end Pygpc
